import Mathlib

/-!
Shallow embedding of the matchmaking / duel-state core of the EmotionalDuel
repository (src/modules/database/database.py, src/handlers.py,
src/modules/emotion_recognition_pipeline/duel_api.py).

Modelling conventions:
* the two durable tables (`duel_queue`, `duels`) are lists of records inside a
  `Store`; autoincrement primary keys are tracked by `nextQid` / `nextDid`;
* timestamps are `Nat` (an abstract monotone clock); `datetime.now()` is passed
  in explicitly as a `now` argument;
* ML scores are `ℚ` (the float comparisons of the source are order comparisons
  on small decimal values, faithfully mirrored by rationals);
* every `Database` method runs inside `Database.session` (database.py lines
  184-198), which commits on success and rolls back on any exception.  An
  operation is therefore a `body : Store → Except String (α × Store)` wrapped
  by `withSession`, which returns the untouched input store whenever the body
  raises (the rollback);
* SQLAlchemy `Result.scalar_one_or_none()` returns `none` on zero rows,
  the row on exactly one row, and raises `MultipleResultsFound` on two or
  more rows; `selectOneOrNone` models it;
* `s.get(Model, pk)` is a primary-key lookup, modelled by `find?` on the id;
  an ORM in-place row update is a `map` replacing the row with that primary
  key.
-/

namespace EmotionalDuel

/-- QueueEntry status values: database.py line 100. -/
inductive QStatus where
  | waiting
  | matched
  | cancelled
  | expired
deriving DecidableEq, Repr

/-- Duel status values: database.py line 74. -/
inductive DStatus where
  | waiting_photos
  | scoring
  | completed
  | cancelled
deriving DecidableEq, Repr

/-- A row of the `duel_queue` table (class DuelQueue, database.py 88-108). -/
structure QueueEntry where
  id : Nat
  user_id : Nat
  room_code : Option Nat
  created_at : Nat
  expires_at : Nat
  status : QStatus
deriving DecidableEq, Repr

/-- A row of the `duels` table (class Duel, database.py 58-85). -/
structure Duel where
  id : Nat
  user_a_id : Nat
  user_b_id : Nat
  room_code : Option Nat
  task_text : String
  score_a : Option ℚ
  score_b : Option ℚ
  winner_user_id : Option Nat
  created_at : Nat
  status : DStatus
  photo_a_received : Bool
  photo_b_received : Bool
deriving DecidableEq, Repr

/-- The frozen DTO returned by the repository (dataclass SavedDuel,
database.py 115-128). -/
structure SavedDuel where
  id : Nat
  user_a_id : Nat
  user_b_id : Nat
  room_code : Option Nat
  task_text : String
  score_a : Option ℚ
  score_b : Option ℚ
  winner_user_id : Option Nat
  created_at : Nat
  status : DStatus
  photo_a_received : Bool
  photo_b_received : Bool
deriving DecidableEq, Repr

/-- Building the DTO from the ORM row (the literal field copy the source
performs at each return site). -/
def toSaved (d : Duel) : SavedDuel :=
  { id := d.id, user_a_id := d.user_a_id, user_b_id := d.user_b_id,
    room_code := d.room_code, task_text := d.task_text,
    score_a := d.score_a, score_b := d.score_b,
    winner_user_id := d.winner_user_id, created_at := d.created_at,
    status := d.status, photo_a_received := d.photo_a_received,
    photo_b_received := d.photo_b_received }

/-- The durable store: the two tables plus their autoincrement counters. -/
structure Store where
  queue : List QueueEntry
  duels : List Duel
  nextQid : Nat
  nextDid : Nat
deriving DecidableEq, Repr

def Store.empty : Store := ⟨[], [], 1, 1⟩

/-- `Result.scalar_one_or_none()`: zero rows → `none`, one row → the row,
two or more rows → `MultipleResultsFound`. -/
def selectOneOrNone {α : Type} (p : α → Bool) (l : List α) : Except String (Option α) :=
  match l.filter p with
  | [] => .ok none
  | [x] => .ok (some x)
  | _ :: _ :: _ => .error "scalar_one_or_none: multiple rows found"

/-- `Database.session` (database.py 184-198): commit the mutated store on
success, roll back to the input store when the body raises. -/
def withSession {α : Type} (body : Store → Except String (α × Store)) (st : Store) :
    Except String α × Store :=
  match body st with
  | .ok (a, st') => (.ok a, st')
  | .error msg => (.error msg, st)

/-- Python truthiness of an optional int (`if room_code:` treats both `None`
and `0` as false). -/
def truthy : Option Nat → Bool
  | none => false
  | some c => c ≠ 0

/-- WHERE user_id = u AND status = 'waiting'. -/
def isWaitingOf (u : Nat) (e : QueueEntry) : Bool :=
  decide (e.user_id = u ∧ e.status = QStatus.waiting)

/-- WHERE user_id = u AND status = 'matched'. -/
def isMatchedOf (u : Nat) (e : QueueEntry) : Bool :=
  decide (e.user_id = u ∧ e.status = QStatus.matched)

/-- WHERE room_code = rc AND status = 'waiting'. -/
def isRoomWaiting (rc : Option Nat) (e : QueueEntry) : Bool :=
  decide (e.room_code = rc ∧ e.status = QStatus.waiting)

/-- WHERE (user_a_id = u OR user_b_id = u) AND status IN
('waiting_photos', 'scoring'). -/
def isActiveDuelOf (u : Nat) (d : Duel) : Bool :=
  decide ((d.user_a_id = u ∨ d.user_b_id = u) ∧
          (d.status = DStatus.waiting_photos ∨ d.status = DStatus.scoring))

/-- `s.get(Duel, duel_id)`: primary-key lookup. -/
def findDuel (st : Store) (duel_id : Nat) : Option Duel :=
  st.duels.find? (fun d => decide (d.id = duel_id))

/-- ORM in-place update of the duel row with primary key `d.id`. -/
def setDuel (st : Store) (d : Duel) : Store :=
  { st with duels := st.duels.map (fun x => if x.id = d.id then d else x) }

/-! ## Database.join_queue (database.py 354-409) -/

def join_queue_body (user_id : Nat) (room_code : Option Nat) (now wait_minutes : Nat)
    (st : Store) : Except String (Option QueueEntry × Store) :=
  let expires_at := now + wait_minutes
  match selectOneOrNone (isWaitingOf user_id) st.queue with
  | .error msg => .error msg
  | .ok (some _) => .error "user already in queue"
  | .ok none =>
    let entry : QueueEntry :=
      { id := st.nextQid, user_id := user_id, room_code := room_code,
        created_at := now, expires_at := expires_at, status := QStatus.waiting }
    let st' : Store :=
      { st with queue := st.queue ++ [entry], nextQid := st.nextQid + 1 }
    if truthy room_code then
      let room_entries := st.queue.filter (isRoomWaiting room_code)
      if room_entries.length = 0 then .ok (none, st)
      else if 2 ≤ room_entries.length then .ok (none, st)
      else .ok (some entry, st')
    else .ok (some entry, st')

def join_queue (user_id : Nat) (room_code : Option Nat) (now wait_minutes : Nat)
    (st : Store) : Except String (Option QueueEntry) × Store :=
  withSession (join_queue_body user_id room_code now wait_minutes) st

/-! ## Database.generate_room_code / Database.create_room (database.py 330-352, 411-428)

`generate_room_code` draws random 4-digit codes; the successive draws of
`secrets.randbelow` are supplied as the `draws` list (the source caps the
number of attempts at 50 and raises `RuntimeError` when they are exhausted,
modelled by the empty list). -/

def generate_room_code (draws : List Nat) (st : Store) : Except String Nat :=
  match draws with
  | [] => .error "failed to generate a unique room code"
  | code :: rest =>
    match selectOneOrNone (isRoomWaiting (some code)) st.queue with
    | .error msg => .error msg
    | .ok none => .ok code
    | .ok (some _) => generate_room_code rest st

def create_room_body (user_id : Nat) (draws : List Nat) (now wait_minutes : Nat)
    (st : Store) : Except String (Nat × Store) :=
  match generate_room_code draws st with
  | .error msg => .error msg
  | .ok room_code =>
    let expires_at := now + wait_minutes
    let entry : QueueEntry :=
      { id := st.nextQid, user_id := user_id, room_code := some room_code,
        created_at := now, expires_at := expires_at, status := QStatus.waiting }
    .ok (room_code, { st with queue := st.queue ++ [entry], nextQid := st.nextQid + 1 })

def create_room (user_id : Nat) (draws : List Nat) (now wait_minutes : Nat)
    (st : Store) : Except String Nat × Store :=
  withSession (create_room_body user_id draws now wait_minutes) st

/-! ## Database.leave_queue (database.py 553-568) -/

def leave_queue_body (user_id : Nat) (st : Store) : Except String (Bool × Store) :=
  match selectOneOrNone (isWaitingOf user_id) st.queue with
  | .error msg => .error msg
  | .ok (some entry) =>
    .ok (true, { st with queue := st.queue.map (fun e =>
      if e.id = entry.id then { e with status := QStatus.cancelled } else e) })
  | .ok none => .ok (false, st)

def leave_queue (user_id : Nat) (st : Store) : Except String Bool × Store :=
  withSession (leave_queue_body user_id) st

/-! ## Database.cleanup_expired_queues (database.py 570-587) -/

def cleanup_expired_queues_body (now : Nat) (st : Store) : Except String (Nat × Store) :=
  let expired := st.queue.filter (fun e =>
    decide (e.expires_at < now ∧ e.status = QStatus.waiting))
  .ok (expired.length, { st with queue := st.queue.map (fun e =>
    if e.expires_at < now ∧ e.status = QStatus.waiting
    then { e with status := QStatus.expired } else e) })

def cleanup_expired_queues (now : Nat) (st : Store) : Except String Nat × Store :=
  withSession (cleanup_expired_queues_body now) st

/-! ## Database.cleanup_duplicate_queues (database.py 827-866)

Orders each duplicated user's waiting rows by `created_at DESC`, keeps the
first and cancels the rest.  SQL leaves the relative order of equal
`created_at` values unspecified; the model keeps the earliest-inserted row
among the ties.  Rows are identified by primary key. -/

def newestWaiting (u : Nat) (q : List QueueEntry) : Option QueueEntry :=
  (q.filter (isWaitingOf u)).foldl (fun acc e =>
    match acc with
    | none => some e
    | some m => if m.created_at < e.created_at then some e else some m) none

def cleanup_duplicate_queues_body (st : Store) : Except String (Nat × Store) :=
  let isDup : QueueEntry → Bool := fun e =>
    decide (e.status = QStatus.waiting) &&
    decide (2 ≤ (st.queue.filter (isWaitingOf e.user_id)).length) &&
    (match newestWaiting e.user_id st.queue with
     | some m => decide (m.id ≠ e.id)
     | none => false)
  .ok ((st.queue.filter isDup).length,
    { st with queue := st.queue.map (fun e =>
        if isDup e then { e with status := QStatus.cancelled } else e) })

def cleanup_duplicate_queues (st : Store) : Except String Nat × Store :=
  withSession cleanup_duplicate_queues_body st

/-! ## Database.find_opponent (database.py 444-493)

Both opponent lookups end in `scalar_one_or_none()`; the `ORDER BY
created_at ASC` of the random branch does not change that call's outcome,
which errors whenever the query yields more than one row. -/

def find_opponent_body (user_id now : Nat) (st : Store) :
    Except String (Option QueueEntry × Store) :=
  match selectOneOrNone (fun e =>
      decide (e.user_id = user_id ∧ e.status = QStatus.waiting ∧ now < e.expires_at))
      st.queue with
  | .error msg => .error msg
  | .ok none => .ok (none, st)
  | .ok (some user_entry) =>
    if truthy user_entry.room_code then
      match selectOneOrNone (fun e =>
          decide (e.room_code = user_entry.room_code ∧ e.user_id ≠ user_id ∧
                  e.status = QStatus.waiting ∧ now < e.expires_at)) st.queue with
      | .error msg => .error msg
      | .ok opponent_entry => .ok (opponent_entry, st)
    else
      match selectOneOrNone (fun e =>
          decide (e.room_code = none ∧ e.user_id ≠ user_id ∧
                  e.status = QStatus.waiting ∧ now < e.expires_at)) st.queue with
      | .error msg => .error msg
      | .ok opponent_entry => .ok (opponent_entry, st)

def find_opponent (user_id now : Nat) (st : Store) :
    Except String (Option QueueEntry) × Store :=
  withSession (find_opponent_body user_id now) st

/-! ## Database.create_duel_from_queue (database.py 495-551)

The random task drawn by `task_manager.get_random_task()` is supplied as the
`task_text` argument. -/

def create_duel_from_queue_body (task_text : String) (now : Nat)
    (user_id opponent_user_id : Nat) (st : Store) :
    Except String (SavedDuel × Store) :=
  match selectOneOrNone (isWaitingOf user_id) st.queue with
  | .error msg => .error msg
  | .ok user_entry =>
    match selectOneOrNone (isWaitingOf opponent_user_id) st.queue with
    | .error msg => .error msg
    | .ok opponent_entry =>
      match user_entry, opponent_entry with
      | some ue, some oe =>
        let duel : Duel :=
          { id := st.nextDid, user_a_id := user_id, user_b_id := opponent_user_id,
            room_code := ue.room_code, task_text := task_text,
            score_a := none, score_b := none, winner_user_id := none,
            created_at := now, status := DStatus.waiting_photos,
            photo_a_received := false, photo_b_received := false }
        .ok (toSaved duel,
          { st with
            queue := st.queue.map (fun e =>
              if e.id = ue.id ∨ e.id = oe.id
              then { e with status := QStatus.matched } else e),
            duels := st.duels ++ [duel],
            nextDid := st.nextDid + 1 })
      | _, _ => .error "one of the users was not found in the queue"

def create_duel_from_queue (task_text : String) (now : Nat)
    (user_id opponent_user_id : Nat) (st : Store) :
    Except String SavedDuel × Store :=
  withSession (create_duel_from_queue_body task_text now user_id opponent_user_id) st

/-! ## Database.mark_duel_photo_received (database.py 281-303) -/

def mark_duel_photo_received_body (duel_id user_id : Nat) (st : Store) :
    Except String (Bool × Store) :=
  match findDuel st duel_id with
  | none => .ok (false, st)
  | some duel =>
    if user_id = duel.user_a_id then
      let d1 := { duel with photo_a_received := true }
      let both := d1.photo_a_received && d1.photo_b_received
      let d2 := if both && decide (d1.status = DStatus.waiting_photos)
                then { d1 with status := DStatus.scoring } else d1
      .ok (both, setDuel st d2)
    else if user_id = duel.user_b_id then
      let d1 := { duel with photo_b_received := true }
      let both := d1.photo_a_received && d1.photo_b_received
      let d2 := if both && decide (d1.status = DStatus.waiting_photos)
                then { d1 with status := DStatus.scoring } else d1
      .ok (both, setDuel st d2)
    else .ok (false, st)

def mark_duel_photo_received (duel_id user_id : Nat) (st : Store) :
    Except String Bool × Store :=
  withSession (mark_duel_photo_received_body duel_id user_id) st

/-! ## Database.update_duel_result (database.py 643-708) -/

/-- The winner rule committed by `update_duel_result` (database.py 686-691):
strict comparison, no draw epsilon. -/
def commitWinner (user_a_id user_b_id : Nat) (score_a score_b : ℚ) : Option Nat :=
  if score_a > score_b then some user_a_id
  else if score_b > score_a then some user_b_id
  else none

def update_duel_result_body (duel_id : Nat) (score_a score_b : ℚ) (task_text : String)
    (st : Store) : Except String (SavedDuel × Store) :=
  match findDuel st duel_id with
  | none => .error "duel not found"
  | some duel =>
    match selectOneOrNone (isMatchedOf duel.user_a_id) st.queue with
    | .error msg => .error msg
    | .ok user_a_entry =>
      match selectOneOrNone (isMatchedOf duel.user_b_id) st.queue with
      | .error msg => .error msg
      | .ok user_b_entry =>
        match user_a_entry, user_b_entry with
        | some ae, some be =>
          let duel' : Duel :=
            { duel with
              task_text := task_text,
              score_a := some score_a, score_b := some score_b,
              status := DStatus.completed,
              winner_user_id := commitWinner duel.user_a_id duel.user_b_id score_a score_b }
          .ok (toSaved duel',
            setDuel
              { st with queue := st.queue.map (fun e =>
                  if e.id = ae.id ∨ e.id = be.id
                  then { e with status := QStatus.expired } else e) }
              duel')
        | _, _ => .error "one of the users was not found in the queue"

def update_duel_result (duel_id : Nat) (score_a score_b : ℚ) (task_text : String)
    (st : Store) : Except String SavedDuel × Store :=
  withSession (update_duel_result_body duel_id score_a score_b task_text) st

/-! ## Database.cancel_duel_on_start (database.py 914-973)

The active-duel query ends in `.scalars().first()` with no ORDER BY; the
model takes the first row in table order.  The returned `SavedDuel` is the
snapshot taken before the cancellation. -/

def cancel_duel_on_start_body (user_id : Nat) (st : Store) :
    Except String ((Bool × Option SavedDuel) × Store) :=
  match st.duels.find? (isActiveDuelOf user_id) with
  | none => .ok ((false, none), st)
  | some active_duel =>
    let saved := toSaved active_duel
    let opponent_id := if active_duel.user_a_id ≠ user_id
                       then active_duel.user_a_id else active_duel.user_b_id
    .ok ((true, some saved),
      { st with
        duels := st.duels.map (fun d =>
          if d.id = active_duel.id then { d with status := DStatus.cancelled } else d),
        queue := st.queue.map (fun e =>
          if (e.user_id = user_id ∨ e.user_id = opponent_id) ∧
             (e.status = QStatus.waiting ∨ e.status = QStatus.matched)
          then { e with status := QStatus.cancelled } else e) })

def cancel_duel_on_start (user_id : Nat) (st : Store) :
    Except String (Bool × Option SavedDuel) × Store :=
  withSession (cancel_duel_on_start_body user_id) st

/-! ## DuelML.score_duel_by_user_ids (duel_api.py 38-88) and run_duel
(handlers.py 325-397) -/

/-- The ML result record (dataclass DuelScores, duel_api.py 16-23). -/
structure DuelScores where
  score_a : ℚ
  score_b : ℚ
  winner : Option String
deriving DecidableEq, Repr

/-- The winner rule of `DuelML.score_duel_by_user_ids` (duel_api.py 76-79):
draw inside the epsilon band, else the strictly larger score wins. -/
def duelWinner (score_a score_b eps_draw : ℚ) : Option String :=
  if |score_a - score_b| < eps_draw then none
  else if score_a > score_b then some "a" else some "b"

/-- Maps duel_api winners under a swap of the two participants. -/
def swapAB : Option String → Option String
  | none => none
  | some w => if w = "a" then some "b" else some "a"

/-- The durable-store effect of `run_duel` (handlers.py 325-397): the image
loading and the model call are external; their outcome is the `scorer`
argument.  When the Scorer raises, the `except` block only sends
notifications — no repository call is made; when it returns,
`update_duel_result` is invoked (and an exception it raises is caught by the
same `except` block after the session rollback). -/
def run_duel_db (duel : SavedDuel) (scorer : Except String DuelScores) (st : Store) : Store :=
  match scorer with
  | .error _ => st
  | .ok scores => (update_duel_result duel.id scores.score_a scores.score_b duel.task_text st).2

/-! ## Invariant of claim C1 -/

/-- Number of `waiting` rows of user `u`. -/
def waitingCount (u : Nat) (st : Store) : Nat :=
  (st.queue.filter (isWaitingOf u)).length

/-- At most one `waiting` queue entry per user. -/
def WaitingInv (st : Store) : Prop :=
  ∀ u, waitingCount u st ≤ 1

/-- N repeated photo submissions by the same user (the duplicate-call
sequence of the barrier claim): collects the per-call results and threads
the store. -/
def iterate_mark (duel_id user_id : Nat) : Nat → Store → List (Except String Bool) × Store
  | 0, st => ([], st)
  | n + 1, st =>
    let r := mark_duel_photo_received duel_id user_id st
    let rest := iterate_mark duel_id user_id n r.2
    (r.1 :: rest.1, rest.2)

/-! ## Concrete stores used by the witnesses and counterexamples -/

/-- Users 1 and 2 each with one code-less `waiting` entry. -/
def twoWaitingStore : Store :=
  { queue := [⟨1, 1, none, 0, 100, QStatus.waiting⟩,
              ⟨2, 2, none, 1, 100, QStatus.waiting⟩],
    duels := [], nextQid := 3, nextDid := 1 }

/-- One duel (id 1) between users 10 and 20 awaiting both photos. -/
def duelPhotosStore : Store :=
  { queue := [],
    duels := [⟨1, 10, 20, none, "joy", none, none, none, 0,
               DStatus.waiting_photos, false, false⟩],
    nextQid := 1, nextDid := 2 }

/-- One duel (id 1) between users 1 and 2 in `scoring`, both users still
holding their `matched` queue entries. -/
def scoringStore : Store :=
  { queue := [⟨1, 1, none, 0, 100, QStatus.matched⟩,
              ⟨2, 2, none, 0, 100, QStatus.matched⟩],
    duels := [⟨1, 1, 2, none, "joy", none, none, none, 0,
               DStatus.scoring, true, true⟩],
    nextQid := 3, nextDid := 2 }

/-- User 1 `waiting` code-less together with two eligible code-less
opponents (users 2 and 3, entry of user 2 older). -/
def threeWaitingStore : Store :=
  { queue := [⟨1, 1, none, 0, 100, QStatus.waiting⟩,
              ⟨2, 2, none, 1, 100, QStatus.waiting⟩,
              ⟨3, 3, none, 2, 100, QStatus.waiting⟩],
    duels := [], nextQid := 4, nextDid := 1 }

/-- One active duel (id 7) between users 1 and 2 plus their `matched`
queue rows. -/
def activeDuelStore : Store :=
  { queue := [⟨1, 1, some 4821, 0, 100, QStatus.matched⟩,
              ⟨2, 2, some 4821, 1, 100, QStatus.matched⟩],
    duels := [⟨7, 1, 2, some 4821, "joy", none, none, none, 2,
               DStatus.waiting_photos, true, false⟩],
    nextQid := 3, nextDid := 8 }

/-! ## General helper lemmas -/

theorem filter_eq_nil_of_selectOneOrNone_none {α : Type} (p : α → Bool) (l : List α)
    (h : selectOneOrNone p l = .ok none) : l.filter p = [] := by
  unfold selectOneOrNone at h
  cases hf : l.filter p with
  | nil => rfl
  | cons a t =>
    cases t with
    | nil => rw [hf] at h; simp at h
    | cons b t' => rw [hf] at h; simp at h

theorem filter_eq_singleton_of_selectOneOrNone_some {α : Type} (p : α → Bool) (l : List α)
    (x : α) (h : selectOneOrNone p l = .ok (some x)) : l.filter p = [x] := by
  unfold selectOneOrNone at h
  cases hf : l.filter p with
  | nil => rw [hf] at h; simp at h
  | cons a t =>
    cases t with
    | nil => rw [hf] at h; simp at h; rw [h]
    | cons b t' => rw [hf] at h; simp at h

theorem find?_of_filter_eq_singleton {α : Type} (p : α → Bool) (l : List α) (d : α)
    (h : l.filter p = [d]) : l.find? p = some d := by
  induction l with
  | nil => simp at h
  | cons a t ih =>
    cases ha : p a with
    | true =>
      rw [List.filter_cons_of_pos ha] at h
      injection h with h1 h2
      rw [List.find?_cons_of_pos _ ha, h1]
    | false =>
      rw [List.filter_cons_of_neg (by simp [ha])] at h
      rw [List.find?_cons_of_neg _ (by simp [ha])]
      exact ih h

theorem find?_of_filter_eq_nil {α : Type} (p : α → Bool) (l : List α)
    (h : l.filter p = []) : l.find? p = none := by
  induction l with
  | nil => rfl
  | cons a t ih =>
    cases ha : p a with
    | true => rw [List.filter_cons_of_pos ha] at h; simp at h
    | false =>
      rw [List.filter_cons_of_neg (by simp [ha])] at h
      rw [List.find?_cons_of_neg _ (by simp [ha])]
      exact ih h

theorem eq_of_mem_of_filter_eq_singleton {α : Type} (p : α → Bool) (l : List α) (d x : α)
    (h : l.filter p = [d]) (hx : x ∈ l) (hpx : p x = true) : x = d := by
  have : x ∈ l.filter p := List.mem_filter.mpr ⟨hx, hpx⟩
  rw [h] at this
  simpa using this

theorem length_filter_map_le (p : QueueEntry → Bool) (f : QueueEntry → QueueEntry)
    (q : List QueueEntry) (hf : ∀ e, p (f e) = true → p e = true) :
    ((q.map f).filter p).length ≤ (q.filter p).length := by
  induction q with
  | nil => simp
  | cons e t ih =>
    simp only [List.map_cons, List.filter_cons]
    by_cases hfe : p (f e) = true
    · have he := hf e hfe
      rw [if_pos hfe, if_pos he]
      simp only [List.length_cons]
      omega
    · rw [if_neg hfe]
      by_cases he : p e = true
      · rw [if_pos he]
        simp only [List.length_cons]
        omega
      · rw [if_neg he]
        exact ih

theorem waitingInv_withSession {α : Type} (body : Store → Except String (α × Store))
    (st : Store) (h : WaitingInv st)
    (hok : ∀ a st', body st = .ok (a, st') → WaitingInv st') :
    WaitingInv (withSession body st).2 := by
  unfold withSession
  cases hb : body st with
  | error msg => simpa using h
  | ok p =>
    obtain ⟨a, st'⟩ := p
    simpa using hok a st' hb

/-! ## Preservation of the waiting invariant -/

theorem waitingInv_join_queue (st : Store) (h : WaitingInv st) (u : Nat)
    (rc : Option Nat) (now w : Nat) : WaitingInv (join_queue u rc now w st).2 := by
  apply waitingInv_withSession _ _ h
  intro a st' hok
  unfold join_queue_body at hok
  cases h1 : selectOneOrNone (isWaitingOf u) st.queue with
  | error m => rw [h1] at hok; simp at hok
  | ok ue =>
    rw [h1] at hok
    cases ue with
    | some e => simp at hok
    | none =>
      have hnil := filter_eq_nil_of_selectOneOrNone_none _ _ h1
      simp only [] at hok
      have hins : ∀ hst' : st' =
          { st with
            queue := st.queue ++ [{ id := st.nextQid, user_id := u, room_code := rc,
                                    created_at := now, expires_at := now + w,
                                    status := QStatus.waiting }],
            nextQid := st.nextQid + 1 }, WaitingInv st' := by
        intro hst'
        subst hst'
        intro v
        show ((st.queue ++ _).filter (isWaitingOf v)).length ≤ 1
        rw [List.filter_append, List.length_append]
        by_cases hv : v = u
        · subst hv
          rw [hnil]
          simp [isWaitingOf]
        · have hz : (List.filter (isWaitingOf v)
              [{ id := st.nextQid, user_id := u, room_code := rc, created_at := now,
                 expires_at := now + w, status := QStatus.waiting }]).length = 0 := by
            simp [isWaitingOf, Ne.symm hv]
          rw [hz]
          simpa using h v
      by_cases hrc : truthy rc = true
      · rw [if_pos hrc] at hok
        by_cases h0 : (st.queue.filter (isRoomWaiting rc)).length = 0
        · rw [if_pos h0] at hok
          simp only [Except.ok.injEq, Prod.mk.injEq] at hok
          obtain ⟨-, rfl⟩ := hok
          exact h
        · rw [if_neg h0] at hok
          by_cases h2 : 2 ≤ (st.queue.filter (isRoomWaiting rc)).length
          · rw [if_pos h2] at hok
            simp only [Except.ok.injEq, Prod.mk.injEq] at hok
            obtain ⟨-, rfl⟩ := hok
            exact h
          · rw [if_neg h2] at hok
            simp only [Except.ok.injEq, Prod.mk.injEq] at hok
            obtain ⟨-, rfl⟩ := hok
            exact hins rfl
      · rw [if_neg hrc] at hok
        simp only [Except.ok.injEq, Prod.mk.injEq] at hok
        obtain ⟨-, rfl⟩ := hok
        exact hins rfl

theorem waitingInv_leave_queue (st : Store) (h : WaitingInv st) (u : Nat) :
    WaitingInv (leave_queue u st).2 := by
  apply waitingInv_withSession _ _ h
  intro a st' hok
  unfold leave_queue_body at hok
  cases h1 : selectOneOrNone (isWaitingOf u) st.queue with
  | error m => rw [h1] at hok; simp at hok
  | ok ue =>
    rw [h1] at hok
    cases ue with
    | none =>
      simp only [Except.ok.injEq, Prod.mk.injEq] at hok
      obtain ⟨-, rfl⟩ := hok
      exact h
    | some e =>
      simp only [Except.ok.injEq, Prod.mk.injEq] at hok
      obtain ⟨-, rfl⟩ := hok
      intro v
      refine le_trans (length_filter_map_le (isWaitingOf v) _ st.queue ?_) (h v)
      intro x hx
      split at hx
      · simp [isWaitingOf] at hx
      · exact hx

theorem waitingInv_create_duel_from_queue (st : Store) (h : WaitingInv st)
    (t : String) (now u o : Nat) :
    WaitingInv (create_duel_from_queue t now u o st).2 := by
  apply waitingInv_withSession _ _ h
  intro a st' hok
  unfold create_duel_from_queue_body at hok
  cases h1 : selectOneOrNone (isWaitingOf u) st.queue with
  | error m => rw [h1] at hok; simp at hok
  | ok ue =>
    rw [h1] at hok
    cases h2 : selectOneOrNone (isWaitingOf o) st.queue with
    | error m => rw [h2] at hok; simp at hok
    | ok oe =>
      rw [h2] at hok
      cases ue with
      | none => cases oe <;> simp at hok
      | some ue' =>
        cases oe with
        | none => simp at hok
        | some oe' =>
          simp only [Except.ok.injEq, Prod.mk.injEq] at hok
          obtain ⟨-, rfl⟩ := hok
          intro v
          refine le_trans (length_filter_map_le (isWaitingOf v) _ st.queue ?_) (h v)
          intro x hx
          split at hx
          · simp [isWaitingOf] at hx
          · exact hx

theorem waitingInv_cleanup_expired_queues (st : Store) (h : WaitingInv st) (now : Nat) :
    WaitingInv (cleanup_expired_queues now st).2 := by
  apply waitingInv_withSession _ _ h
  intro a st' hok
  unfold cleanup_expired_queues_body at hok
  simp only [Except.ok.injEq, Prod.mk.injEq] at hok
  obtain ⟨-, rfl⟩ := hok
  intro v
  refine le_trans (length_filter_map_le (isWaitingOf v) _ st.queue ?_) (h v)
  intro x hx
  split at hx
  · simp [isWaitingOf] at hx
  · exact hx

theorem waitingInv_cleanup_duplicate_queues (st : Store) (h : WaitingInv st) :
    WaitingInv (cleanup_duplicate_queues st).2 := by
  apply waitingInv_withSession _ _ h
  intro a st' hok
  unfold cleanup_duplicate_queues_body at hok
  simp only [Except.ok.injEq, Prod.mk.injEq] at hok
  obtain ⟨-, rfl⟩ := hok
  intro v
  refine le_trans (length_filter_map_le (isWaitingOf v) _ st.queue ?_) (h v)
  intro x hx
  split at hx
  · simp [isWaitingOf] at hx
  · exact hx

/-! ## Claim C1 -/

/-- Claim C1 counterexample: the claim quantifies over sequences of queue
operations that include `create_room`, but `Database.create_room`
(database.py 411-428) inserts a fresh `waiting` row without checking whether
the user already has one.  Starting from the empty store, two `create_room`
calls by user 1 (with fresh random codes 1000 and 2000) leave user 1 with
two `waiting` queue entries, violating the at-most-one-waiting invariant. -/
theorem claim1_counterexample :
    ¬ WaitingInv (create_room 1 [2000] 0 5 (create_room 1 [1000] 0 5 Store.empty).2).2 :=
  fun h => absurd (h 1) (by decide)

/-- Claim C1 amended: every queue operation of the claim other than `create_room`
preserves the at-most-one-`waiting`-entry-per-user invariant — `join_queue`
(which rejects an already-waiting user), `leave_queue`,
`create_duel_from_queue`, and the two cleanup sweeps.  `create_room` is the
exception: it inserts a `waiting` row unconditionally and can give a user who
already has a `waiting` entry a second one. -/
theorem claim1_waiting_invariant (st : Store) (hinv : WaitingInv st)
    (u o : Nat) (rc : Option Nat) (t : String) (now w : Nat) :
    WaitingInv (join_queue u rc now w st).2 ∧
    WaitingInv (leave_queue u st).2 ∧
    WaitingInv (create_duel_from_queue t now u o st).2 ∧
    WaitingInv (cleanup_expired_queues now st).2 ∧
    WaitingInv (cleanup_duplicate_queues st).2 :=
  ⟨waitingInv_join_queue st hinv u rc now w,
   waitingInv_leave_queue st hinv u,
   waitingInv_create_duel_from_queue st hinv t now u o,
   waitingInv_cleanup_expired_queues st hinv now,
   waitingInv_cleanup_duplicate_queues st hinv⟩

theorem withSession_error_eq {α : Type} (body : Store → Except String (α × Store))
    (st : Store) (msg : String) (h : (withSession body st).1 = .error msg) :
    (withSession body st).2 = st := by
  unfold withSession at h ⊢
  cases hb : body st with
  | error m => rfl
  | ok p =>
    rw [hb] at h
    obtain ⟨a, st'⟩ := p
    simp at h

/-- Claim C1 witness: the amended theorem applied to the empty store. -/
theorem claim1_witness :
    WaitingInv Store.empty ∧
    (WaitingInv (join_queue 1 none 0 10 Store.empty).2 ∧
     WaitingInv (leave_queue 1 Store.empty).2 ∧
     WaitingInv (create_duel_from_queue "smile" 0 1 2 Store.empty).2 ∧
     WaitingInv (cleanup_expired_queues 0 Store.empty).2 ∧
     WaitingInv (cleanup_duplicate_queues Store.empty).2) :=
  have h0 : WaitingInv Store.empty := fun _ => Nat.zero_le 1
  ⟨h0, claim1_waiting_invariant Store.empty h0 1 2 none "smile" 0 10⟩

/-! ## Claim C2 -/

/-- Claim C2: pairing is atomic.  `create_duel_from_queue` either (success)
appends exactly one new duel in `waiting_photos` referencing the two users
and flips both users' unique `waiting` queue entries to `matched`, leaving
every other queue row untouched, or (when either user has no `waiting`
entry) raises and — via the session rollback — leaves the store unchanged. -/
theorem claim2_pair_atomic (st : Store) (t : String) (now u o : Nat) :
    (∀ msg, (create_duel_from_queue t now u o st).1 = .error msg →
       (create_duel_from_queue t now u o st).2 = st) ∧
    (st.queue.filter (isWaitingOf u) = [] ∨ st.queue.filter (isWaitingOf o) = [] →
       ∃ msg, (create_duel_from_queue t now u o st).1 = .error msg) ∧
    (∀ saved, (create_duel_from_queue t now u o st).1 = .ok saved →
       ∃ eu eo : QueueEntry,
         st.queue.filter (isWaitingOf u) = [eu] ∧
         st.queue.filter (isWaitingOf o) = [eo] ∧
         ∃ d : Duel,
           (create_duel_from_queue t now u o st).2.duels = st.duels ++ [d] ∧
           d.user_a_id = u ∧ d.user_b_id = o ∧ d.status = DStatus.waiting_photos ∧
           saved = toSaved d ∧
           (∀ e' ∈ (create_duel_from_queue t now u o st).2.queue,
              e'.id = eu.id ∨ e'.id = eo.id → e'.status = QStatus.matched) ∧
           (∀ e' ∈ (create_duel_from_queue t now u o st).2.queue,
              ¬(e'.id = eu.id ∨ e'.id = eo.id) → e' ∈ st.queue)) := by
  refine ⟨fun msg h => withSession_error_eq _ st msg h, ?_, ?_⟩
  · intro hemp
    unfold create_duel_from_queue withSession create_duel_from_queue_body
    rcases hemp with hfu | hfo
    · have hsel : selectOneOrNone (isWaitingOf u) st.queue = .ok none := by
        unfold selectOneOrNone; rw [hfu]
      rw [hsel]
      cases h2 : selectOneOrNone (isWaitingOf o) st.queue with
      | error m => exact ⟨m, rfl⟩
      | ok oe =>
        cases oe with
        | none => exact ⟨_, rfl⟩
        | some x => exact ⟨_, rfl⟩
    · have hsel : selectOneOrNone (isWaitingOf o) st.queue = .ok none := by
        unfold selectOneOrNone; rw [hfo]
      cases h1 : selectOneOrNone (isWaitingOf u) st.queue with
      | error m => exact ⟨m, rfl⟩
      | ok ue =>
        rw [hsel]
        cases ue with
        | none => exact ⟨_, rfl⟩
        | some x => exact ⟨_, rfl⟩
  · intro saved hok
    unfold create_duel_from_queue withSession create_duel_from_queue_body at hok
    cases h1 : selectOneOrNone (isWaitingOf u) st.queue with
    | error m => rw [h1] at hok; simp at hok
    | ok ue =>
      rw [h1] at hok
      cases h2 : selectOneOrNone (isWaitingOf o) st.queue with
      | error m => rw [h2] at hok; simp at hok
      | ok oe =>
        rw [h2] at hok
        cases ue with
        | none => cases oe <;> simp at hok
        | some ue' =>
          cases oe with
          | none => simp at hok
          | some oe' =>
            simp only [Except.ok.injEq] at hok
            have hres : create_duel_from_queue t now u o st =
                (Except.ok (toSaved
                  { id := st.nextDid, user_a_id := u, user_b_id := o,
                    room_code := ue'.room_code, task_text := t, score_a := none,
                    score_b := none, winner_user_id := none, created_at := now,
                    status := DStatus.waiting_photos, photo_a_received := false,
                    photo_b_received := false }),
                 { st with
                   queue := st.queue.map (fun e =>
                     if e.id = ue'.id ∨ e.id = oe'.id
                     then { e with status := QStatus.matched } else e),
                   duels := st.duels ++
                     [{ id := st.nextDid, user_a_id := u, user_b_id := o,
                        room_code := ue'.room_code, task_text := t, score_a := none,
                        score_b := none, winner_user_id := none, created_at := now,
                        status := DStatus.waiting_photos, photo_a_received := false,
                        photo_b_received := false }],
                   nextDid := st.nextDid + 1 }) := by
              unfold create_duel_from_queue withSession create_duel_from_queue_body
              rw [h1, h2]
            rw [hres]
            refine ⟨ue', oe',
              filter_eq_singleton_of_selectOneOrNone_some _ _ _ h1,
              filter_eq_singleton_of_selectOneOrNone_some _ _ _ h2,
              _, rfl, rfl, rfl, rfl, hok.symm, ?_, ?_⟩
            · intro e' he' hid
              obtain ⟨x, hx, rfl⟩ := List.mem_map.mp he'
              by_cases hc : x.id = ue'.id ∨ x.id = oe'.id
              · rw [if_pos hc]
              · rw [if_neg hc] at hid ⊢
                exact absurd hid hc
            · intro e' he' hid
              obtain ⟨x, hx, rfl⟩ := List.mem_map.mp he'
              by_cases hc : x.id = ue'.id ∨ x.id = oe'.id
              · rw [if_pos hc] at hid
                exact absurd hc (by simpa using hid)
              · rw [if_neg hc]
                exact hx

/-- Claim C2 witness: the atomic-pairing theorem applied to a store holding
the two `waiting` users 1 and 2. -/
theorem claim2_witness :
    (create_duel_from_queue "joy" 5 1 2 twoWaitingStore).2.duels.length = 1 := by
  obtain ⟨eu, eo, hu, ho, d, hd, -⟩ :=
    (claim2_pair_atomic twoWaitingStore "joy" 5 1 2).2.2
      (toSaved { id := 1, user_a_id := 1, user_b_id := 2, room_code := none,
                 task_text := "joy", score_a := none, score_b := none,
                 winner_user_id := none, created_at := 5,
                 status := DStatus.waiting_photos, photo_a_received := false,
                 photo_b_received := false })
      (by rfl)
  rw [hd]
  rfl

/-! ## Claim C3 -/

theorem find?_map_update (l : List Duel) (i : Nat) (d d2 : Duel)
    (h : l.find? (fun x => decide (x.id = i)) = some d) (h2 : d2.id = i) :
    (l.map (fun x => if x.id = d2.id then d2 else x)).find?
      (fun x => decide (x.id = i)) = some d2 := by
  induction l with
  | nil => simp at h
  | cons a tl ih =>
    by_cases ha : a.id = i
    · have haa : a.id = d2.id := by rw [ha, h2]
      rw [List.map_cons, if_pos haa]
      rw [List.find?_cons_of_pos _ (by simp [h2])]
    · by_cases had2 : a.id = d2.id
      · exact absurd (had2.trans h2) ha
      · rw [List.find?_cons_of_neg _ (by simp [ha])] at h
        rw [List.map_cons, if_neg had2]
        rw [List.find?_cons_of_neg _ (by simp [ha])]
        exact ih h

theorem findDuel_setDuel (st : Store) (did : Nat) (d d2 : Duel)
    (hfind : findDuel st did = some d) (hid : d2.id = did) :
    findDuel (setDuel st d2) did = some d2 :=
  find?_map_update st.duels did d d2 hfind hid

theorem findDuel_id (st : Store) (did : Nat) (d : Duel)
    (hfind : findDuel st did = some d) : d.id = did := by
  have := List.find?_some hfind
  simpa using this

theorem mark_photo_step (st : Store) (d : Duel) (did : Nat)
    (hfind : findDuel st did = some d)
    (hb : d.photo_b_received = false) :
    mark_duel_photo_received did d.user_a_id st =
      (.ok false, setDuel st { d with photo_a_received := true }) ∧
    findDuel (setDuel st { d with photo_a_received := true }) did =
      some { d with photo_a_received := true } := by
  constructor
  · unfold mark_duel_photo_received withSession mark_duel_photo_received_body
    rw [hfind]
    simp [hb]
  · exact findDuel_setDuel st did d _ hfind (findDuel_id st did d hfind)

theorem mark_photo_opponent_step (st : Store) (d : Duel) (did : Nat)
    (hfind : findDuel st did = some d) (ha : d.photo_a_received = true)
    (hst : d.status = DStatus.waiting_photos) (hne : d.user_b_id ≠ d.user_a_id) :
    mark_duel_photo_received did d.user_b_id st =
      (.ok true, setDuel st { d with photo_b_received := true,
                                     status := DStatus.scoring }) ∧
    findDuel (mark_duel_photo_received did d.user_b_id st).2 did =
      some { d with photo_b_received := true, status := DStatus.scoring } := by
  have hmain : mark_duel_photo_received did d.user_b_id st =
      (.ok true, setDuel st { d with photo_b_received := true,
                                     status := DStatus.scoring }) := by
    unfold mark_duel_photo_received withSession mark_duel_photo_received_body
    rw [hfind]
    simp [hne, ha, hst]
  refine ⟨hmain, ?_⟩
  rw [hmain]
  exact findDuel_setDuel st did d _ hfind (findDuel_id st did d hfind)

theorem iterate_mark_stable (did : Nat) :
    ∀ (n : Nat) (st : Store) (d : Duel), findDuel st did = some d →
      d.photo_a_received = true → d.photo_b_received = false →
      (iterate_mark did d.user_a_id n st).1 = List.replicate n (Except.ok false) ∧
      findDuel (iterate_mark did d.user_a_id n st).2 did = some d := by
  intro n
  induction n with
  | zero => intro st d hfind ha hb; exact ⟨rfl, hfind⟩
  | succ n ih =>
    intro st d hfind ha hb
    obtain ⟨hr, hf⟩ := mark_photo_step st d did hfind hb
    have hd1 : ({ d with photo_a_received := true } : Duel) = d := by
      cases d
      simp only [Duel.mk.injEq]
      simp only at ha
      simp [ha]
    rw [hd1] at hr hf
    obtain ⟨ih1, ih2⟩ := ih (setDuel st d) d hf ha hb
    refine ⟨?_, ?_⟩
    · show (mark_duel_photo_received did d.user_a_id st).1 ::
        (iterate_mark did d.user_a_id n (mark_duel_photo_received did d.user_a_id st).2).1 =
        List.replicate (n + 1) (Except.ok false)
      rw [hr]
      exact congrArg (List.cons (Except.ok false)) ih1
    · show findDuel
        (iterate_mark did d.user_a_id n (mark_duel_photo_received did d.user_a_id st).2).2 did =
        some d
      rw [hr]
      exact ih2

theorem mark_photo_step_b (st : Store) (d : Duel) (did : Nat)
    (hfind : findDuel st did = some d)
    (ha : d.photo_a_received = false)
    (hne : d.user_b_id ≠ d.user_a_id) :
    mark_duel_photo_received did d.user_b_id st =
      (.ok false, setDuel st { d with photo_b_received := true }) ∧
    findDuel (setDuel st { d with photo_b_received := true }) did =
      some { d with photo_b_received := true } := by
  constructor
  · unfold mark_duel_photo_received withSession mark_duel_photo_received_body
    rw [hfind]
    simp [hne, ha]
  · exact findDuel_setDuel st did d _ hfind (findDuel_id st did d hfind)

theorem mark_photo_opponent_step_a (st : Store) (d : Duel) (did : Nat)
    (hfind : findDuel st did = some d) (hb : d.photo_b_received = true)
    (hst : d.status = DStatus.waiting_photos) :
    mark_duel_photo_received did d.user_a_id st =
      (.ok true, setDuel st { d with photo_a_received := true,
                                     status := DStatus.scoring }) ∧
    findDuel (mark_duel_photo_received did d.user_a_id st).2 did =
      some { d with photo_a_received := true, status := DStatus.scoring } := by
  have hmain : mark_duel_photo_received did d.user_a_id st =
      (.ok true, setDuel st { d with photo_a_received := true,
                                     status := DStatus.scoring }) := by
    unfold mark_duel_photo_received withSession mark_duel_photo_received_body
    rw [hfind]
    simp [hb, hst]
  refine ⟨hmain, ?_⟩
  rw [hmain]
  exact findDuel_setDuel st did d _ hfind (findDuel_id st did d hfind)

theorem iterate_mark_stable_b (did : Nat) :
    ∀ (n : Nat) (st : Store) (d : Duel), findDuel st did = some d →
      d.photo_b_received = true → d.photo_a_received = false →
      d.user_b_id ≠ d.user_a_id →
      (iterate_mark did d.user_b_id n st).1 = List.replicate n (Except.ok false) ∧
      findDuel (iterate_mark did d.user_b_id n st).2 did = some d := by
  intro n
  induction n with
  | zero => intro st d hfind hb ha hne; exact ⟨rfl, hfind⟩
  | succ n ih =>
    intro st d hfind hb ha hne
    obtain ⟨hr, hf⟩ := mark_photo_step_b st d did hfind ha hne
    have hd1 : ({ d with photo_b_received := true } : Duel) = d := by
      cases d
      simp only [Duel.mk.injEq]
      simp only at hb
      simp [hb]
    rw [hd1] at hr hf
    obtain ⟨ih1, ih2⟩ := ih (setDuel st d) d hf hb ha hne
    refine ⟨?_, ?_⟩
    · show (mark_duel_photo_received did d.user_b_id st).1 ::
        (iterate_mark did d.user_b_id n (mark_duel_photo_received did d.user_b_id st).2).1 =
        List.replicate (n + 1) (Except.ok false)
      rw [hr]
      exact congrArg (List.cons (Except.ok false)) ih1
    · show findDuel
        (iterate_mark did d.user_b_id n (mark_duel_photo_received did d.user_b_id st).2).2 did =
        some d
      rw [hr]
      exact ih2

/-- Claim C3: the photo barrier fires exactly once per duel, for either
participant in the spamming role.  For a duel in `waiting_photos` whose
opponent's flag is still false, any number n + 1 ≥ 1 of repeated
`mark_duel_photo_received` calls by the same participant — user A while
`photo_b_received` is false, or user B while `photo_a_received` is false —
returns the not-both-received result (`false`) every time and leaves the
stored duel with only the caller's own flag overwritten, still
`waiting_photos`, opponent flag untouched; the both-received result
(`true`) and the single transition to `scoring` happen only at the
opponent's first submission. -/
theorem claim3_photo_barrier (st : Store) (d : Duel) (did n : Nat)
    (hfind : findDuel st did = some d)
    (hst : d.status = DStatus.waiting_photos) :
    (d.photo_b_received = false →
      (iterate_mark did d.user_a_id (n + 1) st).1 =
        List.replicate (n + 1) (Except.ok false) ∧
      findDuel (iterate_mark did d.user_a_id (n + 1) st).2 did =
        some { d with photo_a_received := true } ∧
      ({ d with photo_a_received := true } : Duel).status = DStatus.waiting_photos ∧
      ({ d with photo_a_received := true } : Duel).photo_b_received = false ∧
      (d.user_b_id ≠ d.user_a_id →
        (mark_duel_photo_received did d.user_b_id
          (iterate_mark did d.user_a_id (n + 1) st).2).1 = .ok true ∧
        findDuel (mark_duel_photo_received did d.user_b_id
          (iterate_mark did d.user_a_id (n + 1) st).2).2 did =
          some { d with photo_a_received := true, photo_b_received := true,
                        status := DStatus.scoring })) ∧
    (d.photo_a_received = false → d.user_b_id ≠ d.user_a_id →
      (iterate_mark did d.user_b_id (n + 1) st).1 =
        List.replicate (n + 1) (Except.ok false) ∧
      findDuel (iterate_mark did d.user_b_id (n + 1) st).2 did =
        some { d with photo_b_received := true } ∧
      ({ d with photo_b_received := true } : Duel).status = DStatus.waiting_photos ∧
      ({ d with photo_b_received := true } : Duel).photo_a_received = false ∧
      ((mark_duel_photo_received did d.user_a_id
          (iterate_mark did d.user_b_id (n + 1) st).2).1 = .ok true ∧
       findDuel (mark_duel_photo_received did d.user_a_id
          (iterate_mark did d.user_b_id (n + 1) st).2).2 did =
          some { d with photo_a_received := true, photo_b_received := true,
                        status := DStatus.scoring })) := by
  constructor
  · intro hb
    obtain ⟨hr, hf⟩ := mark_photo_step st d did hfind hb
    have hstab := iterate_mark_stable did n (setDuel st { d with photo_a_received := true })
      { d with photo_a_received := true } hf rfl hb
    have hc1 : (iterate_mark did d.user_a_id (n + 1) st).1 =
        List.replicate (n + 1) (Except.ok false) := by
      show (mark_duel_photo_received did d.user_a_id st).1 ::
        (iterate_mark did d.user_a_id n (mark_duel_photo_received did d.user_a_id st).2).1 =
        List.replicate (n + 1) (Except.ok false)
      rw [hr]
      exact congrArg (List.cons (Except.ok false)) hstab.1
    have hc2 : findDuel (iterate_mark did d.user_a_id (n + 1) st).2 did =
        some { d with photo_a_received := true } := by
      show findDuel
        (iterate_mark did d.user_a_id n (mark_duel_photo_received did d.user_a_id st).2).2 did =
        some { d with photo_a_received := true }
      rw [hr]
      exact hstab.2
    refine ⟨hc1, hc2, hst, hb, fun hne => ?_⟩
    obtain ⟨hop, hfop⟩ := mark_photo_opponent_step
      (iterate_mark did d.user_a_id (n + 1) st).2 { d with photo_a_received := true }
      did hc2 rfl hst hne
    exact ⟨by rw [hop], hfop⟩
  · intro ha hne
    obtain ⟨hr, hf⟩ := mark_photo_step_b st d did hfind ha hne
    have hstab := iterate_mark_stable_b did n (setDuel st { d with photo_b_received := true })
      { d with photo_b_received := true } hf rfl ha hne
    have hc1 : (iterate_mark did d.user_b_id (n + 1) st).1 =
        List.replicate (n + 1) (Except.ok false) := by
      show (mark_duel_photo_received did d.user_b_id st).1 ::
        (iterate_mark did d.user_b_id n (mark_duel_photo_received did d.user_b_id st).2).1 =
        List.replicate (n + 1) (Except.ok false)
      rw [hr]
      exact congrArg (List.cons (Except.ok false)) hstab.1
    have hc2 : findDuel (iterate_mark did d.user_b_id (n + 1) st).2 did =
        some { d with photo_b_received := true } := by
      show findDuel
        (iterate_mark did d.user_b_id n (mark_duel_photo_received did d.user_b_id st).2).2 did =
        some { d with photo_b_received := true }
      rw [hr]
      exact hstab.2
    refine ⟨hc1, hc2, hst, ha, ?_⟩
    obtain ⟨hop, hfop⟩ := mark_photo_opponent_step_a
      (iterate_mark did d.user_b_id (n + 1) st).2 { d with photo_b_received := true }
      did hc2 rfl hst
    exact ⟨by rw [hop], hfop⟩

/-- Claim C3 witness: on the concrete duel of `duelPhotosStore`, two
duplicate submissions by user 10 followed by user 20's first submission,
and — symmetrically — two duplicate submissions by user 20 followed by
user 10's first submission. -/
theorem claim3_witness :
    (false = false →
      (iterate_mark 1 10 2 duelPhotosStore).1 = List.replicate 2 (Except.ok false) ∧
      findDuel (iterate_mark 1 10 2 duelPhotosStore).2 1 =
        some ⟨1, 10, 20, none, "joy", none, none, none, 0,
              DStatus.waiting_photos, true, false⟩ ∧
      DStatus.waiting_photos = DStatus.waiting_photos ∧
      false = false ∧
      ((20 : Nat) ≠ 10 →
        (mark_duel_photo_received 1 20 (iterate_mark 1 10 2 duelPhotosStore).2).1 =
          .ok true ∧
        findDuel (mark_duel_photo_received 1 20 (iterate_mark 1 10 2 duelPhotosStore).2).2 1 =
          some ⟨1, 10, 20, none, "joy", none, none, none, 0,
                DStatus.scoring, true, true⟩)) ∧
    (false = false → (20 : Nat) ≠ 10 →
      (iterate_mark 1 20 2 duelPhotosStore).1 = List.replicate 2 (Except.ok false) ∧
      findDuel (iterate_mark 1 20 2 duelPhotosStore).2 1 =
        some ⟨1, 10, 20, none, "joy", none, none, none, 0,
              DStatus.waiting_photos, false, true⟩ ∧
      DStatus.waiting_photos = DStatus.waiting_photos ∧
      false = false ∧
      ((mark_duel_photo_received 1 10 (iterate_mark 1 20 2 duelPhotosStore).2).1 =
          .ok true ∧
       findDuel (mark_duel_photo_received 1 10 (iterate_mark 1 20 2 duelPhotosStore).2).2 1 =
          some ⟨1, 10, 20, none, "joy", none, none, none, 0,
                DStatus.scoring, true, true⟩)) :=
  claim3_photo_barrier duelPhotosStore
    ⟨1, 10, 20, none, "joy", none, none, none, 0, DStatus.waiting_photos, false, false⟩
    1 1 rfl rfl

/-! ## Claim C4 -/

/-- Claim C4 counterexample: with scores 0.50005 and 0.5 — inside the
eps_draw = 1e-3 band, so the claim demands a committed draw (null winner) —
`update_duel_result` commits user A as the winner: the winner written to the
store uses the strict comparison of database.py 686-691, not the epsilon
rule of duel_api.py 76-79. -/
theorem claim4_counterexample :
    (update_duel_result 1 (50005 / 100000 : ℚ) (1 / 2) "joy" scoringStore).1.map
      SavedDuel.winner_user_id = Except.ok (some 1) ∧
    |(50005 / 100000 : ℚ) - 1 / 2| < 1 / 1000 ∧
    duelWinner (50005 / 100000 : ℚ) (1 / 2) (1 / 1000) = none := by
  have habs : |(50005 / 100000 : ℚ) - 1 / 2| < 1 / 1000 := by
    rw [show (50005 / 100000 : ℚ) - 1 / 2 = 1 / 20000 from by norm_num,
        abs_of_nonneg (by norm_num : (0 : ℚ) ≤ 1 / 20000)]
    norm_num
  refine ⟨?_, habs, ?_⟩
  · have h1 : commitWinner 1 2 (50005 / 100000 : ℚ) (1 / 2) = some 1 := by
      unfold commitWinner
      rw [if_pos (by norm_num : (50005 / 100000 : ℚ) > 1 / 2)]
    show Except.ok (commitWinner 1 2 (50005 / 100000 : ℚ) (1 / 2)) = Except.ok (some 1)
    rw [h1]
  · unfold duelWinner
    rw [if_pos habs]

/-- Claim C4 amended: the winner committed to the store by
`update_duel_result` is `commitWinner` — user A on strictly larger score_a,
user B on strictly larger score_b, and null only on exact equality, with no
draw epsilon; it is deterministic and symmetric (swapping the participants
and their scores names the same winner).  The epsilon rule of the claim
(draw whenever |score_a - score_b| < 1e-3) governs only the `DuelScores`
winner of `DuelML.score_duel_by_user_ids`, which is likewise symmetric. -/
theorem claim4_winner_rules (st : Store) (did : Nat) (sa sb : ℚ) (t : String)
    (saved : SavedDuel) (duel : Duel)
    (hfind : findDuel st did = some duel)
    (hok : (update_duel_result did sa sb t st).1 = .ok saved) :
    saved.winner_user_id = commitWinner duel.user_a_id duel.user_b_id sa sb ∧
    commitWinner duel.user_b_id duel.user_a_id sb sa =
      commitWinner duel.user_a_id duel.user_b_id sa sb ∧
    duelWinner sb sa (1 / 1000) = swapAB (duelWinner sa sb (1 / 1000)) ∧
    (|sa - sb| < 1 / 1000 → duelWinner sa sb (1 / 1000) = none) := by
  refine ⟨?_, ?_, ?_, ?_⟩
  · unfold update_duel_result withSession update_duel_result_body at hok
    rw [hfind] at hok
    simp only [] at hok
    cases h2 : selectOneOrNone (isMatchedOf duel.user_a_id) st.queue with
    | error m => rw [h2] at hok; simp at hok
    | ok ae =>
      rw [h2] at hok
      cases h3 : selectOneOrNone (isMatchedOf duel.user_b_id) st.queue with
      | error m => rw [h3] at hok; simp at hok
      | ok be =>
        rw [h3] at hok
        cases ae with
        | none => cases be <;> simp at hok
        | some ae' =>
          cases be with
          | none => simp at hok
          | some be' =>
            simp only [Except.ok.injEq] at hok
            rw [← hok]
            rfl
  · rcases lt_trichotomy sa sb with h | h | h
    · simp [commitWinner, h, lt_asymm h]
    · subst h
      simp [commitWinner, lt_irrefl]
    · simp [commitWinner, h, lt_asymm h]
  · by_cases hd : |sa - sb| < 1 / 1000
    · have hd2 : |sb - sa| < 1 / 1000 := by rwa [abs_sub_comm]
      unfold duelWinner
      rw [if_pos hd, if_pos hd2]
      rfl
    · have hd2 : ¬|sb - sa| < 1 / 1000 := by rwa [abs_sub_comm]
      unfold duelWinner
      rw [if_neg hd, if_neg hd2]
      rcases lt_trichotomy sa sb with h | h | h
      · rw [if_neg (lt_asymm h : ¬sa > sb), if_pos (h : sb > sa)]
        rfl
      · exact absurd (by rw [h, sub_self, abs_zero]; norm_num) hd
      · rw [if_pos (h : sa > sb), if_neg (lt_asymm h : ¬sb > sa)]
        rfl
  · intro h
    unfold duelWinner
    rw [if_pos h]

/-- Claim C4 witness: the amended theorem applied to the concrete `scoring`
duel of `scoringStore` with scores 1 and 0. -/
theorem claim4_witness :
    (some 1 : Option Nat) = commitWinner 1 2 (1 : ℚ) 0 ∧
    commitWinner 2 1 (0 : ℚ) 1 = commitWinner 1 2 (1 : ℚ) 0 ∧
    duelWinner (0 : ℚ) 1 (1 / 1000) = swapAB (duelWinner (1 : ℚ) 0 (1 / 1000)) ∧
    (|(1 : ℚ) - 0| < 1 / 1000 → duelWinner (1 : ℚ) 0 (1 / 1000) = none) :=
  claim4_winner_rules scoringStore 1 (1 : ℚ) 0 "joy"
    ⟨1, 1, 2, none, "joy", some 1, some 0, some 1, 0,
     DStatus.completed, true, true⟩
    ⟨1, 1, 2, none, "joy", none, none, none, 0, DStatus.scoring, true, true⟩
    rfl (by rfl)

/-! ## Claim C5 -/

/-- Claim C5: `cancel_duel_on_start` for a user whose single active duel
(status `waiting_photos` or `scoring`) is `d` — and whose opponent's single
active duel is likewise `d` — returns `(true, d)` (the pre-cancellation
snapshot of `d`), marks the stored duel `cancelled`, leaves neither
participant any active (`waiting_photos`/`scoring`) duel row nor any
`waiting`/`matched` queue row; for a user with no active duel it returns
`(false, none)` and leaves the store untouched. -/
theorem claim5_cancel_active (st : Store) (u : Nat) (d : Duel) :
    (st.duels.filter (isActiveDuelOf u) = [d] →
     st.duels.filter
       (isActiveDuelOf (if d.user_a_id ≠ u then d.user_a_id else d.user_b_id)) = [d] →
     (cancel_duel_on_start u st).1 = .ok (true, some (toSaved d)) ∧
     (∀ x ∈ (cancel_duel_on_start u st).2.duels,
        x.id = d.id → x.status = DStatus.cancelled) ∧
     (∀ x ∈ (cancel_duel_on_start u st).2.duels, isActiveDuelOf u x = false) ∧
     (∀ x ∈ (cancel_duel_on_start u st).2.duels,
        isActiveDuelOf (if d.user_a_id ≠ u then d.user_a_id else d.user_b_id) x = false) ∧
     (∀ e ∈ (cancel_duel_on_start u st).2.queue,
        e.user_id = u ∨ e.user_id = (if d.user_a_id ≠ u then d.user_a_id else d.user_b_id) →
        e.status ≠ QStatus.waiting ∧ e.status ≠ QStatus.matched)) ∧
    (st.duels.filter (isActiveDuelOf u) = [] →
     cancel_duel_on_start u st = (.ok (false, none), st)) := by
  constructor
  · intro hu hopp
    have hfd : st.duels.find? (isActiveDuelOf u) = some d :=
      find?_of_filter_eq_singleton _ _ _ hu
    have hres : cancel_duel_on_start u st =
        (.ok (true, some (toSaved d)),
         { st with
           duels := st.duels.map (fun x =>
             if x.id = d.id then { x with status := DStatus.cancelled } else x),
           queue := st.queue.map (fun e =>
             if (e.user_id = u ∨
                 e.user_id = (if d.user_a_id ≠ u then d.user_a_id else d.user_b_id)) ∧
                (e.status = QStatus.waiting ∨ e.status = QStatus.matched)
             then { e with status := QStatus.cancelled } else e) }) := by
      unfold cancel_duel_on_start withSession cancel_duel_on_start_body
      rw [hfd]
    rw [hres]
    refine ⟨rfl, ?_, ?_, ?_, ?_⟩
    · intro x hx hid
      obtain ⟨y, hy, rfl⟩ := List.mem_map.mp hx
      by_cases hc : y.id = d.id
      · rw [if_pos hc]
      · rw [if_neg hc] at hid ⊢
        exact absurd hid hc
    · intro x hx
      obtain ⟨y, hy, rfl⟩ := List.mem_map.mp hx
      by_cases hc : y.id = d.id
      · rw [if_pos hc]
        simp [isActiveDuelOf]
      · rw [if_neg hc]
        cases hact : isActiveDuelOf u y with
        | false => rfl
        | true =>
          exact absurd (congrArg Duel.id
            (eq_of_mem_of_filter_eq_singleton _ _ _ _ hu hy hact)) hc
    · intro x hx
      obtain ⟨y, hy, rfl⟩ := List.mem_map.mp hx
      by_cases hc : y.id = d.id
      · rw [if_pos hc]
        simp [isActiveDuelOf]
      · rw [if_neg hc]
        cases hact : isActiveDuelOf
            (if d.user_a_id ≠ u then d.user_a_id else d.user_b_id) y with
        | false => rfl
        | true =>
          exact absurd (congrArg Duel.id
            (eq_of_mem_of_filter_eq_singleton _ _ _ _ hopp hy hact)) hc
    · intro e he hid
      obtain ⟨y, hy, rfl⟩ := List.mem_map.mp he
      by_cases hc : (y.user_id = u ∨
          y.user_id = (if d.user_a_id ≠ u then d.user_a_id else d.user_b_id)) ∧
          (y.status = QStatus.waiting ∨ y.status = QStatus.matched)
      · rw [if_pos hc]
        exact ⟨fun h => QStatus.noConfusion h, fun h => QStatus.noConfusion h⟩
      · rw [if_neg hc] at hid ⊢
        constructor
        · intro hw
          exact hc ⟨hid, Or.inl hw⟩
        · intro hm
          exact hc ⟨hid, Or.inr hm⟩
  · intro hnil
    have hfd : st.duels.find? (isActiveDuelOf u) = none :=
      find?_of_filter_eq_nil _ _ hnil
    unfold cancel_duel_on_start withSession cancel_duel_on_start_body
    rw [hfd]

/-- Claim C5 witness: user 1 cancels the active duel 7 of `activeDuelStore`;
both participants' rows end up cancelled. -/
theorem claim5_witness :
    (cancel_duel_on_start 1 activeDuelStore).1 =
      .ok (true, some (toSaved ⟨7, 1, 2, some 4821, "joy", none, none, none, 2,
                               DStatus.waiting_photos, true, false⟩)) ∧
    (∀ x ∈ (cancel_duel_on_start 1 activeDuelStore).2.duels,
       x.id = 7 → x.status = DStatus.cancelled) ∧
    (∀ x ∈ (cancel_duel_on_start 1 activeDuelStore).2.duels,
       isActiveDuelOf 1 x = false) ∧
    (∀ x ∈ (cancel_duel_on_start 1 activeDuelStore).2.duels,
       isActiveDuelOf 2 x = false) ∧
    (∀ e ∈ (cancel_duel_on_start 1 activeDuelStore).2.queue,
       e.user_id = 1 ∨ e.user_id = 2 →
       e.status ≠ QStatus.waiting ∧ e.status ≠ QStatus.matched) :=
  (claim5_cancel_active activeDuelStore 1
    ⟨7, 1, 2, some 4821, "joy", none, none, none, 2,
     DStatus.waiting_photos, true, false⟩).1 (by decide) (by decide)

/-! ## Claim C6 -/

/-- Claim C6: when the Scorer raises, `run_duel` never calls the repository:
a duel that was in `scoring` with null scores is left exactly as it was —
status `scoring`, `score_a` and `score_b` still null, no result committed. -/
theorem claim6_scorer_failure (st : Store) (duel : SavedDuel) (d : Duel) (msg : String)
    (hfind : findDuel st duel.id = some d)
    (hst : d.status = DStatus.scoring)
    (ha : d.score_a = none) (hb : d.score_b = none) :
    run_duel_db duel (.error msg) st = st ∧
    findDuel (run_duel_db duel (.error msg) st) duel.id = some d ∧
    d.status = DStatus.scoring ∧ d.score_a = none ∧ d.score_b = none :=
  ⟨rfl, hfind, hst, ha, hb⟩

/-- Claim C6 witness: the Scorer raising on the concrete `scoring` duel of
`scoringStore`. -/
theorem claim6_witness :
    run_duel_db
      (toSaved ⟨1, 1, 2, none, "joy", none, none, none, 0, DStatus.scoring, true, true⟩)
      (.error "analysis failed") scoringStore = scoringStore ∧
    findDuel
      (run_duel_db
        (toSaved ⟨1, 1, 2, none, "joy", none, none, none, 0, DStatus.scoring, true, true⟩)
        (.error "analysis failed") scoringStore)
      (toSaved ⟨1, 1, 2, none, "joy", none, none, none, 0,
                DStatus.scoring, true, true⟩).id =
      some ⟨1, 1, 2, none, "joy", none, none, none, 0, DStatus.scoring, true, true⟩ ∧
    DStatus.scoring = DStatus.scoring ∧
    (none : Option ℚ) = none ∧ (none : Option ℚ) = none :=
  claim6_scorer_failure scoringStore
    (toSaved ⟨1, 1, 2, none, "joy", none, none, none, 0, DStatus.scoring, true, true⟩)
    ⟨1, 1, 2, none, "joy", none, none, none, 0, DStatus.scoring, true, true⟩
    "analysis failed" rfl rfl rfl rfl

/-! ## Claim C7 -/

/-- Claim C7: committing a result through `update_duel_result` requires both
participants to still hold a `matched` queue entry.  On success both of
those entries are flipped to `expired` and the duel is completed with the
given scores; when the duel does not exist or either participant lacks a
`matched` entry, the call raises and the session rollback leaves the store
— duel rows and queue rows alike — unchanged. -/
theorem claim7_update_result_contract (st : Store) (did : Nat) (sa sb : ℚ)
    (t : String) (saved : SavedDuel) (duel : Duel) :
    (∀ msg, (update_duel_result did sa sb t st).1 = .error msg →
       (update_duel_result did sa sb t st).2 = st) ∧
    (findDuel st did = none →
       ∃ msg, (update_duel_result did sa sb t st).1 = .error msg) ∧
    (findDuel st did = some duel →
       st.queue.filter (isMatchedOf duel.user_a_id) = [] ∨
       st.queue.filter (isMatchedOf duel.user_b_id) = [] →
       ∃ msg, (update_duel_result did sa sb t st).1 = .error msg) ∧
    ((update_duel_result did sa sb t st).1 = .ok saved →
     findDuel st did = some duel →
       ∃ ea eb : QueueEntry,
         st.queue.filter (isMatchedOf duel.user_a_id) = [ea] ∧
         st.queue.filter (isMatchedOf duel.user_b_id) = [eb] ∧
         (∀ e ∈ (update_duel_result did sa sb t st).2.queue,
            e.id = ea.id ∨ e.id = eb.id → e.status = QStatus.expired) ∧
         saved.status = DStatus.completed ∧ saved.score_a = some sa ∧
         saved.score_b = some sb ∧
         (∀ x ∈ (update_duel_result did sa sb t st).2.duels,
            x.id = duel.id → x.status = DStatus.completed)) := by
  refine ⟨fun msg h => withSession_error_eq _ st msg h, ?_, ?_, ?_⟩
  · intro hnone
    unfold update_duel_result withSession update_duel_result_body
    rw [hnone]
    exact ⟨_, rfl⟩
  · intro hfd hor
    unfold update_duel_result withSession update_duel_result_body
    rw [hfd]
    simp only []
    rcases hor with h | h
    · have hsel1 : selectOneOrNone (isMatchedOf duel.user_a_id) st.queue = .ok none := by
        unfold selectOneOrNone; rw [h]
      rw [hsel1]
      cases h2 : selectOneOrNone (isMatchedOf duel.user_b_id) st.queue with
      | error m => exact ⟨m, rfl⟩
      | ok be =>
        cases be with
        | none => exact ⟨_, rfl⟩
        | some x => exact ⟨_, rfl⟩
    · have hsel2 : selectOneOrNone (isMatchedOf duel.user_b_id) st.queue = .ok none := by
        unfold selectOneOrNone; rw [h]
      cases h1 : selectOneOrNone (isMatchedOf duel.user_a_id) st.queue with
      | error m => exact ⟨m, rfl⟩
      | ok ae =>
        rw [hsel2]
        cases ae with
        | none => exact ⟨_, rfl⟩
        | some x => exact ⟨_, rfl⟩
  · intro hok hfd
    unfold update_duel_result withSession update_duel_result_body at hok
    rw [hfd] at hok
    simp only [] at hok
    cases h2 : selectOneOrNone (isMatchedOf duel.user_a_id) st.queue with
    | error m => rw [h2] at hok; simp at hok
    | ok ae =>
      rw [h2] at hok
      cases h3 : selectOneOrNone (isMatchedOf duel.user_b_id) st.queue with
      | error m => rw [h3] at hok; simp at hok
      | ok be =>
        rw [h3] at hok
        cases ae with
        | none => cases be <;> simp at hok
        | some ae' =>
          cases be with
          | none => simp at hok
          | some be' =>
            simp only [Except.ok.injEq] at hok
            have hres : update_duel_result did sa sb t st =
                (Except.ok (toSaved
                  { duel with
                    task_text := t, score_a := some sa, score_b := some sb,
                    status := DStatus.completed,
                    winner_user_id :=
                      commitWinner duel.user_a_id duel.user_b_id sa sb }),
                 setDuel
                   { st with queue := st.queue.map (fun e =>
                       if e.id = ae'.id ∨ e.id = be'.id
                       then { e with status := QStatus.expired } else e) }
                   { duel with
                     task_text := t, score_a := some sa, score_b := some sb,
                     status := DStatus.completed,
                     winner_user_id :=
                       commitWinner duel.user_a_id duel.user_b_id sa sb }) := by
              unfold update_duel_result withSession update_duel_result_body
              rw [hfd]
              simp only []
              rw [h2, h3]
            refine ⟨ae', be',
              filter_eq_singleton_of_selectOneOrNone_some _ _ _ h2,
              filter_eq_singleton_of_selectOneOrNone_some _ _ _ h3,
              ?_, by rw [← hok]; rfl, by rw [← hok]; rfl, by rw [← hok]; rfl, ?_⟩
            · intro e he hid
              rw [hres] at he
              obtain ⟨y, hy, rfl⟩ := List.mem_map.mp he
              by_cases hc : y.id = ae'.id ∨ y.id = be'.id
              · rw [if_pos hc]
              · rw [if_neg hc] at hid ⊢
                exact absurd hid hc
            · intro x hx hid
              rw [hres] at hx
              obtain ⟨y, hy, rfl⟩ := List.mem_map.mp hx
              by_cases hc : y.id =
                  ({ duel with
                     task_text := t, score_a := some sa, score_b := some sb,
                     status := DStatus.completed,
                     winner_user_id :=
                       commitWinner duel.user_a_id duel.user_b_id sa sb } : Duel).id
              · rw [if_pos hc]
              · rw [if_neg hc] at hid ⊢
                exact absurd hid hc

/-- Claim C7 witness: the contract applied to the concrete `scoring` duel of
`scoringStore`, whose two participants still hold `matched` entries. -/
theorem claim7_witness :
    ∃ ea eb : QueueEntry,
      scoringStore.queue.filter (isMatchedOf 1) = [ea] ∧
      scoringStore.queue.filter (isMatchedOf 2) = [eb] ∧
      (∀ e ∈ (update_duel_result 1 (1 : ℚ) 0 "joy" scoringStore).2.queue,
         e.id = ea.id ∨ e.id = eb.id → e.status = QStatus.expired) ∧
      (⟨1, 1, 2, none, "joy", some 1, some 0, some 1, 0,
        DStatus.completed, true, true⟩ : SavedDuel).status = DStatus.completed ∧
      (⟨1, 1, 2, none, "joy", some 1, some 0, some 1, 0,
        DStatus.completed, true, true⟩ : SavedDuel).score_a = some 1 ∧
      (⟨1, 1, 2, none, "joy", some 1, some 0, some 1, 0,
        DStatus.completed, true, true⟩ : SavedDuel).score_b = some 0 ∧
      (∀ x ∈ (update_duel_result 1 (1 : ℚ) 0 "joy" scoringStore).2.duels,
         x.id = 1 → x.status = DStatus.completed) :=
  ((claim7_update_result_contract scoringStore 1 (1 : ℚ) 0 "joy"
      ⟨1, 1, 2, none, "joy", some 1, some 0, some 1, 0,
       DStatus.completed, true, true⟩
      ⟨1, 1, 2, none, "joy", none, none, none, 0,
       DStatus.scoring, true, true⟩).2.2.2) (by rfl) rfl

/-! ## Claim C8 -/

/-- Claim C8, the code evaluated at the failing input: in
`threeWaitingStore` user 1 is `waiting` and code-less and two eligible
code-less opponents exist (users 2 and 3, both `waiting` and unexpired), so
the claim demands that `find_opponent` return the oldest (user 2's entry);
the code instead raises `MultipleResultsFound`, because the random-branch
query of database.py 474-481 ends in `scalar_one_or_none()` — which errors
on a multi-row result — rather than taking the first row of the
`created_at ASC` ordering. -/
theorem claim8_find_opponent_raises :
    (find_opponent 1 50 threeWaitingStore).1 =
      .error "scalar_one_or_none: multiple rows found" ∧
    (threeWaitingStore.queue.filter (fun e =>
       decide (e.room_code = none ∧ e.user_id ≠ 1 ∧ e.status = QStatus.waiting ∧
               50 < e.expires_at))).length = 2 :=
  ⟨rfl, rfl⟩

/-! ## Claim C9 -/

/-- Claim C9 counterexample: user 5 has no `waiting` entry and supplies room
code 1234, whose room has zero (so fewer than 2) `waiting` occupants.  The
claim's only rejection conditions do not apply, so it demands a new
`waiting` entry; `join_queue` instead returns `None` silently (the
room-not-found branch of database.py 386-387) and creates nothing. -/
theorem claim9_counterexample :
    Store.empty.queue.filter (isWaitingOf 5) = [] ∧
    (Store.empty.queue.filter (isRoomWaiting (some 1234))).length = 0 ∧
    join_queue 5 (some 1234) 0 10 Store.empty = (.ok none, Store.empty) :=
  ⟨rfl, rfl, rfl⟩

/-- Claim C9 amended: `join_queue` raises the existing-state error for a
user who already has a `waiting` entry, and returns `none` without creating
anything both when the supplied room already has 2 `waiting` occupants and
— beyond the claim's two rejection conditions — when no `waiting` entry
with that room code exists at all (room not found); only otherwise (no room
code, or exactly one `waiting` occupant) does it create and return a new
`waiting` entry for the user. -/
theorem claim9_join_queue (st : Store) (u : Nat) (rc : Option Nat) (now w : Nat)
    (e : QueueEntry) :
    (st.queue.filter (isWaitingOf u) = [e] →
       join_queue u rc now w st = (.error "user already in queue", st)) ∧
    (st.queue.filter (isWaitingOf u) = [] → truthy rc = true →
       st.queue.filter (isRoomWaiting rc) = [] →
       join_queue u rc now w st = (.ok none, st)) ∧
    (st.queue.filter (isWaitingOf u) = [] → truthy rc = true →
       2 ≤ (st.queue.filter (isRoomWaiting rc)).length →
       join_queue u rc now w st = (.ok none, st)) ∧
    (st.queue.filter (isWaitingOf u) = [] →
       (truthy rc = false ∨ (st.queue.filter (isRoomWaiting rc)).length = 1) →
       join_queue u rc now w st =
         (.ok (some ⟨st.nextQid, u, rc, now, now + w, QStatus.waiting⟩),
          { st with
            queue := st.queue ++ [⟨st.nextQid, u, rc, now, now + w, QStatus.waiting⟩],
            nextQid := st.nextQid + 1 })) := by
  refine ⟨?_, ?_, ?_, ?_⟩
  · intro hu
    have hsel : selectOneOrNone (isWaitingOf u) st.queue = .ok (some e) := by
      unfold selectOneOrNone; rw [hu]
    unfold join_queue withSession join_queue_body
    rw [hsel]
  · intro hu hrc hroom
    have hsel : selectOneOrNone (isWaitingOf u) st.queue = .ok none := by
      unfold selectOneOrNone; rw [hu]
    unfold join_queue withSession join_queue_body
    rw [hsel]
    simp only []
    rw [if_pos hrc, hroom]
    rfl
  · intro hu hrc hlen
    have hsel : selectOneOrNone (isWaitingOf u) st.queue = .ok none := by
      unfold selectOneOrNone; rw [hu]
    unfold join_queue withSession join_queue_body
    rw [hsel]
    simp only []
    rw [if_pos hrc,
        if_neg (by omega : ¬(st.queue.filter (isRoomWaiting rc)).length = 0),
        if_pos hlen]
  · intro hu hcase
    have hsel : selectOneOrNone (isWaitingOf u) st.queue = .ok none := by
      unfold selectOneOrNone; rw [hu]
    unfold join_queue withSession join_queue_body
    rw [hsel]
    simp only []
    by_cases htr : truthy rc = true
    · rcases hcase with hf | hlen
      · rw [htr] at hf
        simp at hf
      · rw [if_pos htr,
            if_neg (by omega : ¬(st.queue.filter (isRoomWaiting rc)).length = 0),
            if_neg (by omega : ¬2 ≤ (st.queue.filter (isRoomWaiting rc)).length)]
    · rw [if_neg htr]

/-- Claim C9 witness: a code-less join by user 1 on the empty store creates
and returns the new `waiting` entry. -/
theorem claim9_witness :
    join_queue 1 none 0 10 Store.empty =
      (.ok (some ⟨1, 1, none, 0, 10, QStatus.waiting⟩),
       ⟨[⟨1, 1, none, 0, 10, QStatus.waiting⟩], [], 2, 1⟩) :=
  (claim9_join_queue Store.empty 1 none 0 10
    ⟨0, 0, none, 0, 0, QStatus.waiting⟩).2.2.2 rfl (Or.inl rfl)

/-! ## Claim C10 -/

/-- Claim C10 counterexample: user 3 is not a participant of duel 1 of
`duelPhotosStore` (its participants are 10 and 20).  The claim demands a
`NotParticipant` error returned to the caller; `mark_duel_photo_received`
instead returns the plain boolean `false` — the same value a participant
gets while waiting for the opponent — with no error raised. -/
theorem claim10_counterexample :
    findDuel duelPhotosStore 1 =
      some ⟨1, 10, 20, none, "joy", none, none, none, 0,
            DStatus.waiting_photos, false, false⟩ ∧
    mark_duel_photo_received 1 3 duelPhotosStore = (.ok false, duelPhotosStore) :=
  ⟨rfl, rfl⟩

/-- Claim C10 amended: for a user who is neither `user_a` nor `user_b` of
the duel, `mark_duel_photo_received` changes no photo flag and no duel
status — the store is returned untouched — but the validation is silent: it
returns the ordinary `false` (the same not-both-received value a waiting
participant receives) instead of a distinct `NotParticipant` error. -/
theorem claim10_not_participant (st : Store) (did u : Nat) (d : Duel)
    (hfind : findDuel st did = some d)
    (hua : u ≠ d.user_a_id) (hub : u ≠ d.user_b_id) :
    mark_duel_photo_received did u st = (.ok false, st) := by
  unfold mark_duel_photo_received withSession mark_duel_photo_received_body
  rw [hfind]
  simp only []
  rw [if_neg hua, if_neg hub]

/-- Claim C10 witness: non-participant user 3 calling into duel 1 of
`duelPhotosStore`. -/
theorem claim10_witness :
    mark_duel_photo_received 1 3 duelPhotosStore = (.ok false, duelPhotosStore) :=
  claim10_not_participant duelPhotosStore 1 3
    ⟨1, 10, 20, none, "joy", none, none, none, 0,
     DStatus.waiting_photos, false, false⟩
    rfl (by decide) (by decide)

end EmotionalDuel
